import Mathlib

/-!
Verification of the Mergington High School activities API (src/src/app.py)
against its natural-language specification.

The module state of app.py is the global `activities`, a Python list of
dict records with keys id, name, category, participants (app.py lines
23-33).  The handlers `get_activities` (lines 41-43) and
`signup_for_activity` (lines 46-62) operate on that list.  The DELETE
unregister handler described by the spec is absent from app.py (only the
test suite calls it); it is modelled from the spec below.

Shallow embedding choices:
* a record of the list becomes the structure `Activity`;
* handler outcomes become the inductive `SignupResult`: `ok` carries the
  response message and the post-state, `httpError` the status code and
  detail string of a raised HTTPException (which aborts the handler
  before any mutation), and `typeError` a Python TypeError crash;
* Python's `in` on a list compares the candidate with each element by
  `==`; between a `str` and a `dict`, `__eq__` is NotImplemented on both
  sides, so Python falls back to identity, which is false for a string
  and a dict.  Hence the element test is constantly false, captured by
  `pyStrEqActivity`.
-/

/-- One record of the in-memory `activities` list (app.py lines 23-33):
a Python dict with keys id, name, category, participants. -/
structure Activity where
  id : Nat
  name : String
  category : String
  participants : List String
deriving Repr, DecidableEq

/-- The seeded `activities` list, transcribed from app.py lines 23-33. -/
def activitiesSeed : List Activity :=
  [⟨1, "Basketball", "sports", []⟩,
   ⟨2, "Painting Workshop", "artistic", []⟩,
   ⟨3, "Python Bootcamp", "intellectual", []⟩,
   ⟨4, "Tennis Tournament", "sports", []⟩,
   ⟨5, "Swimming Competition", "sports", []⟩,
   ⟨6, "Dance Class", "artistic", []⟩,
   ⟨7, "Sculpture Studio", "artistic", []⟩,
   ⟨8, "Machine Learning Seminar", "intellectual", []⟩,
   ⟨9, "Chess Tournament", "intellectual", []⟩]

/-- Outcome of a request handler: a 200 response with message and
post-state, a raised HTTPException (status, detail) leaving the state
untouched, or a Python TypeError crash. -/
inductive SignupResult where
  | ok (message : String) (newState : List Activity)
  | httpError (status : Nat) (detail : String)
  | typeError
deriving Repr, DecidableEq

/-- Python `==` between the path string `activity_name` and an element of
the `activities` list.  The elements are dicts; `str.__eq__(dict)` and
`dict.__eq__(str)` both return NotImplemented, so `==` falls back to
identity, which is false for a string and a dict.  Constantly false. -/
def pyStrEqActivity : String → Activity → Bool :=
  fun _ _ => false

/-- Python membership `activity_name in activities` on the list of
records: any element comparing `==` to the string (app.py line 50). -/
def pyMemStrList (s : String) (l : List Activity) : Bool :=
  l.any (pyStrEqActivity s)

/-- The GET /activities handler (app.py lines 41-43): returns the
`activities` object itself, unchanged. -/
def get_activities (state : List Activity) : List Activity :=
  state

/-- The POST /activities/\x7bactivity_name\x7d/signup handler (app.py lines
46-62).  Line 50 tests `activity_name not in activities`; since the
element comparison is constantly false the guard is always taken and the
handler raises 404.  In the (unreachable) else branch the very next
expression, `activities[activity_name]` on line 54, indexes a Python
list with a string, which raises TypeError before the duplicate check,
the append (line 61) or the confirmation message (line 62) can run. -/
def signup_for_activity (state : List Activity) (activity_name email : String) :
    SignupResult :=
  if !(pyMemStrList activity_name state) then
    SignupResult.httpError 404 "Activity not found"
  else
    SignupResult.typeError

/-- The activities list after a signup call: the new state on a 200
response, the old state otherwise (an HTTPException is raised before any
mutation of `activities`). -/
def signupStateAfter (state : List Activity) (activity_name email : String) :
    List Activity :=
  match signup_for_activity state activity_name email with
  | SignupResult.ok _ s => s
  | _ => state

/-- Per-record update performed by a successful unregister: the record
whose name matches the path segment loses one occurrence of the email;
every other record is untouched. -/
def unregUpdate (activity_name email : String) (b : Activity) : Activity :=
  if b.name = activity_name then
    { b with participants := b.participants.erase email }
  else
    b

/-- Modelled from the spec: the DELETE /activities/\x7bname\x7d/signup
handler is absent from src/src/app.py (only the test suite calls it).
Per spec section 4.1, lookups are keyed by the activity's unique name:
404 "activity not found" when the name is absent, 404 "not signed up"
when the email is not currently a participant, otherwise the email is
removed from the participant sequence and a confirmation message
referencing the email is returned. -/
def unregister_from_activity (state : List Activity) (activity_name email : String) :
    SignupResult :=
  match state.find? (fun b => b.name == activity_name) with
  | none => SignupResult.httpError 404 "Activity not found"
  | some a =>
    if email ∈ a.participants then
      SignupResult.ok ("Unregistered " ++ email ++ " from " ++ activity_name)
        (state.map (unregUpdate activity_name email))
    else
      SignupResult.httpError 404 "Student is not signed up for this activity"

/-- The activities list after an unregister call: the new state on a 200
response, the old state otherwise. -/
def unregStateAfter (state : List Activity) (activity_name email : String) :
    List Activity :=
  match unregister_from_activity state activity_name email with
  | SignupResult.ok _ s => s
  | _ => state

/-- States reachable from the seeded collection by any sequence of
signup and unregister calls. -/
inductive Reachable : List Activity → Prop where
  | seed : Reachable activitiesSeed
  | signup (s : List Activity) (name email : String) :
      Reachable s → Reachable (signupStateAfter s name email)
  | unregister (s : List Activity) (name email : String) :
      Reachable s → Reachable (unregStateAfter s name email)

/-- A one-activity state in which an email is already a participant,
for exercising the duplicate-signup branch. -/
def dupState : List Activity :=
  [⟨1, "Basketball", "sports", ["michael@mergington.edu"]⟩]

/-- A state with participants present, for exercising unregister. -/
def sampleState : List Activity :=
  [⟨1, "Basketball", "sports", ["michael@mergington.edu", "daniel@mergington.edu"]⟩,
   ⟨6, "Dance Class", "artistic", []⟩]

/-! ### Helper lemmas -/

/-- Membership of a string in the record list is always false. -/
theorem pyMemStrList_false (n : String) (s : List Activity) :
    pyMemStrList n s = false := by
  simp [pyMemStrList, pyStrEqActivity]

/-- The signup handler raises 404 "Activity not found" on every input:
the existence check on app.py line 50 never finds the name among the
dict records. -/
theorem signup_always_404 (s : List Activity) (n e : String) :
    signup_for_activity s n e = SignupResult.httpError 404 "Activity not found" := by
  simp [signup_for_activity, pyMemStrList_false]

/-- A signup call never changes the activities list. -/
theorem signupStateAfter_eq (s : List Activity) (n e : String) :
    signupStateAfter s n e = s := by
  simp [signupStateAfter, signup_always_404]

/-- The unregister update keeps the name of every record. -/
theorem unregUpdate_name (n e : String) (b : Activity) :
    (unregUpdate n e b).name = b.name := by
  unfold unregUpdate
  split <;> rfl

/-- An unregister call either leaves the state unchanged or maps the
per-record update over it. -/
theorem unregStateAfter_cases (s : List Activity) (n e : String) :
    unregStateAfter s n e = s ∨
      unregStateAfter s n e = s.map (unregUpdate n e) := by
  unfold unregStateAfter unregister_from_activity
  cases hf : s.find? (fun b => b.name == n) with
  | none => left; rfl
  | some a =>
    by_cases hm : e ∈ a.participants
    · right; simp [hm]
    · left; simp [hm]

/-- Mapping the unregister update preserves the name sequence. -/
theorem map_name_unregUpdate (n e : String) (s : List Activity) :
    (s.map (unregUpdate n e)).map Activity.name = s.map Activity.name := by
  induction s with
  | nil => rfl
  | cons a t ih =>
    simp only [List.map_cons]
    rw [ih, unregUpdate_name]

/-- Mapping the unregister update preserves id, name and category of
every record, positionally. -/
theorem map_fields_unregUpdate (n e : String) (s : List Activity) :
    (s.map (unregUpdate n e)).map (fun a => (a.id, a.name, a.category)) =
      s.map (fun a => (a.id, a.name, a.category)) := by
  induction s with
  | nil => rfl
  | cons a t ih =>
    simp only [List.map_cons]
    rw [ih]
    unfold unregUpdate
    split <;> rfl

/-- Every reachable state carries the seeded name sequence. -/
theorem reachable_names {s : List Activity} (h : Reachable s) :
    s.map Activity.name = activitiesSeed.map Activity.name := by
  induction h with
  | seed => rfl
  | signup s n e _ ih =>
    rw [signupStateAfter_eq]
    exact ih
  | unregister s n e _ ih =>
    rcases unregStateAfter_cases s n e with hc | hc
    · rw [hc]; exact ih
    · rw [hc, map_name_unregUpdate]; exact ih

/-! ### Claim theorems -/

/-- Claim C1 (code evaluation at the failing input): "Basketball" is the
name of a seeded activity and "student@mergington.edu" is in no
participant list, yet the signup call answers 404 "Activity not found"
and leaves the state unchanged, instead of the claimed 200 confirmation
with the email appended. -/
theorem C1_code_rejects_valid_signup :
    "Basketball" ∈ activitiesSeed.map Activity.name ∧
    (∀ a ∈ activitiesSeed, "student@mergington.edu" ∉ a.participants) ∧
    signup_for_activity activitiesSeed "Basketball" "student@mergington.edu" =
      SignupResult.httpError 404 "Activity not found" ∧
    signupStateAfter activitiesSeed "Basketball" "student@mergington.edu" =
      activitiesSeed := by
  decide

/-- Claim C2 (code evaluation): the list-activities handler returns the
state unchanged — but that state is a list of records carrying id, name,
category and participants, not a mapping keyed by activity name with
description, schedule and max_participants fields. -/
theorem C2_code_returns_record_list :
    get_activities activitiesSeed = activitiesSeed ∧
    activitiesSeed.map (fun a => (a.id, a.name, a.category, a.participants)) =
      [(1, "Basketball", "sports", ([] : List String)),
       (2, "Painting Workshop", "artistic", []),
       (3, "Python Bootcamp", "intellectual", []),
       (4, "Tennis Tournament", "sports", []),
       (5, "Swimming Competition", "sports", []),
       (6, "Dance Class", "artistic", []),
       (7, "Sculpture Studio", "artistic", []),
       (8, "Machine Learning Seminar", "intellectual", []),
       (9, "Chess Tournament", "intellectual", [])] := by
  decide

/-- Claim C3 (code evaluation at the failing input): in a state where
"michael@mergington.edu" is already a participant of Basketball, the
duplicate signup answers 404 "Activity not found", not the claimed 400
"already signed up". -/
theorem C3_code_404_on_duplicate :
    (∃ a ∈ dupState, a.name = "Basketball" ∧
      "michael@mergington.edu" ∈ a.participants) ∧
    signup_for_activity dupState "Basketball" "michael@mergington.edu" =
      SignupResult.httpError 404 "Activity not found" ∧
    signupStateAfter dupState "Basketball" "michael@mergington.edu" = dupState := by
  decide

/-- Claim C4: a signup naming an activity absent from the collection
fails with 404 and detail "Activity not found", and the state is
unchanged by the failed call. -/
theorem C4_unknown_activity_404 (state : List Activity) (name email : String)
    (habsent : ∀ a ∈ state, a.name ≠ name) :
    signup_for_activity state name email =
      SignupResult.httpError 404 "Activity not found" ∧
    signupStateAfter state name email = state :=
  ⟨signup_always_404 state name email, signupStateAfter_eq state name email⟩

/-- Witness for C4 at the concrete input "Nonexistent Club". -/
theorem C4_witness :
    (∀ a ∈ activitiesSeed, a.name ≠ "Nonexistent Club") ∧
    (signup_for_activity activitiesSeed "Nonexistent Club" "student@mergington.edu" =
        SignupResult.httpError 404 "Activity not found" ∧
      signupStateAfter activitiesSeed "Nonexistent Club" "student@mergington.edu" =
        activitiesSeed) :=
  ⟨by decide,
   C4_unknown_activity_404 activitiesSeed "Nonexistent Club" "student@mergington.edu"
     (by decide)⟩

/-- Claim C6 (code evaluation at the failing input): the first step of
the round trip already fails — "Painting Workshop" is seeded and the
email is fresh, yet signup answers 404 instead of succeeding. -/
theorem C6_roundtrip_first_step_fails :
    "Painting Workshop" ∈ activitiesSeed.map Activity.name ∧
    (∀ a ∈ activitiesSeed, "alice@mergington.edu" ∉ a.participants) ∧
    signup_for_activity activitiesSeed "Painting Workshop" "alice@mergington.edu" =
      SignupResult.httpError 404 "Activity not found" := by
  decide

/-- Claim C9 (code evaluation at the failing input): no branch of the
signup handler consults any capacity, but the claim that signup succeeds
fails — the call answers 404 even for a seeded activity name and a fresh
email (and the records carry no max_participants field at all). -/
theorem C9_code_never_succeeds :
    "Dance Class" ∈ activitiesSeed.map Activity.name ∧
    (∀ a ∈ activitiesSeed, "bob@mergington.edu" ∉ a.participants) ∧
    signup_for_activity activitiesSeed "Dance Class" "bob@mergington.edu" =
      SignupResult.httpError 404 "Activity not found" := by
  decide

/-- Claim C10: on the seeded state the signup operation answers 404
"Activity not found" and leaves the state unchanged for every
activity-name string and every email — including names of seeded records
such as "Basketball" — because the existence check compares the name
string against the dict records themselves and never matches. -/
theorem C10_signup_always_not_found :
    (∀ name email : String,
        signup_for_activity activitiesSeed name email =
          SignupResult.httpError 404 "Activity not found" ∧
        signupStateAfter activitiesSeed name email = activitiesSeed) ∧
    "Basketball" ∈ activitiesSeed.map Activity.name := by
  refine ⟨fun name email => ⟨signup_always_404 _ _ _, signupStateAfter_eq _ _ _⟩, ?_⟩
  decide

/-- Claim C5: when the activity named in the path exists (found record
a) and each record with that name has a duplicate-free participant list,
unregistering an email that is a participant of a succeeds with a 200
confirmation and the email is afterwards in no participant list of that
activity, while unregistering an email that is not a participant fails
with 404 and a "not signed up" detail, leaving the state unchanged. -/
theorem C5_unregister_behavior (state : List Activity) (name email : String)
    (a : Activity)
    (ha : state.find? (fun b => b.name == name) = some a)
    (hnodup : ∀ b ∈ state, b.name = name → b.participants.Nodup) :
    (email ∈ a.participants →
        unregister_from_activity state name email =
          SignupResult.ok ("Unregistered " ++ email ++ " from " ++ name)
            (unregStateAfter state name email) ∧
        ∀ b ∈ unregStateAfter state name email, b.name = name →
          email ∉ b.participants) ∧
    (email ∉ a.participants →
        unregister_from_activity state name email =
          SignupResult.httpError 404 "Student is not signed up for this activity" ∧
        unregStateAfter state name email = state) := by
  constructor
  · intro hmem
    have hu : unregister_from_activity state name email =
        SignupResult.ok ("Unregistered " ++ email ++ " from " ++ name)
          (state.map (unregUpdate name email)) := by
      simp [unregister_from_activity, ha, hmem]
    have hsa : unregStateAfter state name email =
        state.map (unregUpdate name email) := by
      simp [unregStateAfter, hu]
    refine ⟨by rw [hu, hsa], ?_⟩
    intro b hb hbn
    rw [hsa] at hb
    obtain ⟨c, hc, rfl⟩ := List.mem_map.1 hb
    by_cases hcn : c.name = name
    · have hnd := hnodup c hc hcn
      simp only [unregUpdate, if_pos hcn]
      exact hnd.not_mem_erase
    · exact absurd (by simpa [unregUpdate, if_neg hcn] using hbn) hcn
  · intro hnot
    have hu : unregister_from_activity state name email =
        SignupResult.httpError 404 "Student is not signed up for this activity" := by
      simp [unregister_from_activity, ha, hnot]
    exact ⟨hu, by simp [unregStateAfter, hu]⟩

/-- Witness for C5: unregistering michael@mergington.edu from Basketball
in a concrete state where that email is a participant. -/
theorem C5_witness :
    unregister_from_activity sampleState "Basketball" "michael@mergington.edu" =
      SignupResult.ok
        ("Unregistered " ++ "michael@mergington.edu" ++ " from " ++ "Basketball")
        (unregStateAfter sampleState "Basketball" "michael@mergington.edu") ∧
    ∀ b ∈ unregStateAfter sampleState "Basketball" "michael@mergington.edu",
      b.name = "Basketball" → "michael@mergington.edu" ∉ b.participants := by
  have h := C5_unregister_behavior sampleState "Basketball" "michael@mergington.edu"
    ⟨1, "Basketball", "sports", ["michael@mergington.edu", "daniel@mergington.edu"]⟩
    (by decide) (by decide)
  exact h.1 (by decide)

/-- Claim C7: in every state reachable from the seeded collection by
signup and unregister calls, each activity's participants sequence
contains each email at most once. -/
theorem C7_participants_nodup (s : List Activity) (h : Reachable s) :
    ∀ a ∈ s, a.participants.Nodup := by
  induction h with
  | seed => decide
  | signup s n e _ ih =>
    rw [signupStateAfter_eq]
    exact ih
  | unregister s n e _ ih =>
    rcases unregStateAfter_cases s n e with hc | hc
    · rw [hc]; exact ih
    · rw [hc]
      intro b hb
      obtain ⟨c, hcmem, rfl⟩ := List.mem_map.1 hb
      unfold unregUpdate
      split
      · exact (ih c hcmem).erase e
      · exact ih c hcmem

/-- Witness for C7 at the seeded state itself. -/
theorem C7_witness :
    Reachable activitiesSeed ∧ ∀ a ∈ activitiesSeed, a.participants.Nodup :=
  ⟨Reachable.seed, C7_participants_nodup activitiesSeed Reachable.seed⟩

/-- Claim C8: no call creates or deletes an activity — every reachable
state carries the seeded name sequence — a signup call leaves the whole
state unchanged, an unregister call preserves id, name and category of
every record positionally, and a record whose name differs from the
targeted one is entirely unchanged, at its original position. -/
theorem C8_frame (s : List Activity) (hs : Reachable s) (n e : String) :
    s.map Activity.name = activitiesSeed.map Activity.name ∧
    signupStateAfter s n e = s ∧
    (unregStateAfter s n e).map (fun a => (a.id, a.name, a.category)) =
      s.map (fun a => (a.id, a.name, a.category)) ∧
    ∀ i : Nat, ∀ b : Activity, s[i]? = some b → b.name ≠ n →
      (unregStateAfter s n e)[i]? = some b := by
  refine ⟨reachable_names hs, signupStateAfter_eq s n e, ?_, ?_⟩
  · rcases unregStateAfter_cases s n e with hc | hc
    · rw [hc]
    · rw [hc, map_fields_unregUpdate]
  · intro i b hb hbn
    rcases unregStateAfter_cases s n e with hc | hc
    · rw [hc]; exact hb
    · rw [hc, List.getElem?_map, hb]
      simp [unregUpdate, hbn]

/-- Witness for C8 at the seeded state with a concrete call. -/
theorem C8_witness :
    activitiesSeed.map Activity.name = activitiesSeed.map Activity.name ∧
    signupStateAfter activitiesSeed "Basketball" "carol@mergington.edu" =
      activitiesSeed ∧
    (unregStateAfter activitiesSeed "Basketball" "carol@mergington.edu").map
        (fun a => (a.id, a.name, a.category)) =
      activitiesSeed.map (fun a => (a.id, a.name, a.category)) ∧
    ∀ i : Nat, ∀ b : Activity, activitiesSeed[i]? = some b →
      b.name ≠ "Basketball" →
      (unregStateAfter activitiesSeed "Basketball" "carol@mergington.edu")[i]? =
        some b :=
  C8_frame activitiesSeed Reachable.seed "Basketball" "carol@mergington.edu"
